import Mathlib

/-!
Shallow embedding of `tpMuscleSplineRig.py` (a Maya muscle-spline rigging tool).

The script drives Maya's scene graph through `pymel` / `maya.cmds`.  We embed it
as a trace semantics: every host-API call the script performs is recorded as a
`Cmd` event, and a run of the builder produces the list of events it issued
together with an `Outcome` (the Python return value, or the exception that
escaped).  Host-side responses that the script branches on (whether the plugin
is loaded, whether a name already exists, the value of `outLen`) are supplied by
a `Scene` oracle.

Modelling conventions, stated once:
* Machine floats are embedded as rationals (`0.25` becomes `1/4`, etc.).
  Python float division by zero (`i / (numDrivens - 1.0)` with `numDrivens = 1`)
  raises `ZeroDivisionError`; the embedding returns `Outcome.raisedZeroDiv`.
* `pm.error` is recorded as a `Cmd.hostError` event and control continues to the
  explicit `return` statement that follows it in the source, mirroring the
  script's own control flow.
* `pm.sets(s, include=x)` follows pymel's semantics: the operating set is the
  first positional argument, so the call adds `x` as a member of set `s`
  (event `Cmd.addToSet s [x]`).  This is the only reading under which the
  script's many `pm.sets(setRig, include=obj)` calls are meaningful.
* Names that Maya itself invents (constraint nodes, the auto-created transform
  above a shape) are modelled by deterministic conventions (`..._aimConstraint1`
  and friends); no claim depends on these strings.
* `snap(a, b)` performs queries plus one `xform` translation and a `select`;
  it is recorded as `Cmd.snapNode a b` followed by `Cmd.selectNode a`.
-/

/-- Python's `str.replace` on explicit character lists (all occurrences,
leftmost, non-overlapping); fuel decreases by one per examined character. -/
def pyReplaceAux (pat rep : List Char) : Nat → List Char → List Char
  | 0, s => s
  | _ + 1, [] => []
  | fuel + 1, c :: rest =>
      if pat.isPrefixOf (c :: rest) then
        rep ++ pyReplaceAux pat rep fuel ((c :: rest).drop pat.length)
      else
        c :: pyReplaceAux pat rep fuel rest

/-- Helper for Python's `s.replace('', rep)`: interleaves `rep` after every
character. -/
def pyInterleave (rep : List Char) : List Char → List Char
  | [] => []
  | c :: cs => c :: (rep ++ pyInterleave rep cs)

/-- Python's `str.replace(pat, rep)`: replaces every occurrence; with an empty
pattern, `rep` is inserted before every character and at the end. -/
def pyReplace (s pat rep : String) : String :=
  if pat.data = [] then
    ⟨rep.data ++ pyInterleave rep.data s.data⟩
  else
    ⟨pyReplaceAux pat.data rep.data s.data.length s.data⟩

/-- Specification of one `pm.addAttr` call: the flags the script passes. -/
structure AttrSpec where
  longName : String
  shortName : Option String := none
  minValue : Option ℚ := none
  maxValue : Option ℚ := none
  defaultValue : Option ℚ := none
  keyable : Bool := true
deriving DecidableEq

/-- One host-API call issued by the script, in program order. -/
inductive Cmd where
  | printMsg (msg : String)
  | loadPlugin (plugin : String)
  | hostError (msg : String)
  | msgBox (title text : String)
  | createSet (name : String)
  | addToSet (setName : String) (members : List String)
  | createGroup (name : String)
  | createNode (nodeType name : String)
  | renameTo (newName : String)
  | createCurve (name : String) (size : ℚ)
  | createCircle (name : String) (radius : ℚ)
  | createJoint (name : String)
  | parentNode (child par : String)
  | setInherit (node : String) (value : Bool)
  | setLock (node attr : String) (lock : Bool)
  | setLockKeyable (node attr : String) (lock keyable : Bool)
  | setAttrQ (node attr : String) (value : ℚ)
  | setAttrV3 (node attr : String) (v : ℚ × ℚ × ℚ)
  | overrideEnabled (ctrl : String)
  | overrideColor (ctrl : String) (color : ℕ)
  | addAttr (node : String) (spec : AttrSpec)
  | addAttrEnum (node attr : String)
  | connectAttr (src dst : String)
  | xformTranslate (node : String) (t : ℚ × ℚ × ℚ)
  | snapNode (source target : String)
  | selectNode (node : String)
  | selectClear
  | pointCns (target constrained : String) (weight : ℚ)
  | aimCns (target constrained : String)
  | orientCns (target constrained : String) (weight : ℚ)
  | openChunk
  | closeChunk
deriving DecidableEq

/-- The muscle-spline control record (`tpMuscleSplineCtrl`): the control curve
plus the root and auto groups set on it by `makeSpline`. -/
structure CtrlRecord where
  ctrl : String
  root : String
  auto : String
deriving DecidableEq

/-- The instance attributes a `tpMuscleSplineRig` object holds after a
successful `makeSpline` call (`self.mainGrp`, `self.splineNode`, ...). -/
structure RigState where
  mainGrp : String
  splineNode : String
  splineNodeXForm : String
  controlsGrp : String
  drivensGrp : String
  controls : List CtrlRecord
  consGrps : List String
  rootGrps : List String
  drivens : List String
deriving DecidableEq

/-- Python-level result of a `makeSpline` call. -/
inductive Outcome where
  | retNone
  | retFalse
  | raisedZeroDiv
  | raisedTypeError
  | ok (rig : RigState) (ret : String)
deriving DecidableEq

/-- Host-side responses the script branches on. -/
structure Scene where
  pluginLoaded : Bool
  pluginLoadOk : Bool
  objExists0 : String → Bool
  upAxisExists : Bool
  outLen : ℚ

/-- The parameters of `tpMuscleSplineRig.makeSpline`, with the source's default
values. -/
structure Params where
  name : String
  suffixCtrl : String := "ctrl"
  suffixJnt : String := "jnt"
  suffixGrp : String := "grp"
  suffixDrv : String := "drv"
  charSize : ℚ := 1
  numControls : ℕ := 3
  controlType : String := "cube"
  numDrivens : ℕ := 5
  drivenType : String := "joint"
  constrainMid : Bool := false
  mainSetName : String := "setMUSCLERIGS"
  rigSetSuffix : String := "RIG"
  muscleSplineName : String := "tpMuscleSpline"
  controlsGrpSuffix : String := "controls"
  jointsGrpSuffix : String := "joints"
  rootSuffix : String := "root"
  autoSuffix : String := "auto"
  lockScale : Bool := true
  lockJiggleAttributes : Bool := false

/-- Name of the per-rig set: `'set' + baseName + rigSetSuffix`. -/
def setRigName (p : Params) : String :=
  "set" ++ p.name ++ p.rigSetSuffix

/-- Name of the main group: `baseName + '_' + muscleSplineName + '_' + suffixGrp`. -/
def mainGrpName (p : Params) : String :=
  p.name ++ "_" ++ p.muscleSplineName ++ "_" ++ p.suffixGrp

/-- Name of the `cMuscleSpline` shape node. -/
def splineShapeName (p : Params) : String :=
  p.name ++ "_" ++ p.muscleSplineName ++ "Shape"

/-- Name the spline transform is renamed to. -/
def splineXformName (p : Params) : String :=
  p.name ++ "_" ++ p.muscleSplineName

/-- Name of the controls group. -/
def controlsGrpName (p : Params) : String :=
  p.name ++ "_" ++ p.muscleSplineName ++ "_" ++ p.controlsGrpSuffix

/-- Name of the drivens group (built with `jointsGrpSuffix`). -/
def drivensGrpName (p : Params) : String :=
  p.name ++ "_" ++ p.muscleSplineName ++ "_" ++ p.jointsGrpSuffix

/-- Name of control `i`. -/
def ctrlName (p : Params) (i : ℕ) : String :=
  p.name ++ "_" ++ p.muscleSplineName ++ "_" ++ toString i ++ "_" ++ p.suffixCtrl

/-- Name of driven node `i`. -/
def drvName (p : Params) (i : ℕ) : String :=
  p.name ++ "_" ++ p.muscleSplineName ++ "_" ++ toString i ++ "_" ++ p.suffixDrv

/-- Name of the root group of control `i`: `ctrlName.replace(suffixCtrl, rootSuffix)`. -/
def rootName (p : Params) (i : ℕ) : String :=
  pyReplace (ctrlName p i) p.suffixCtrl p.rootSuffix

/-- Name of the auto group of control `i`: `ctrlName.replace(suffixCtrl, autoSuffix)`. -/
def autoName (p : Params) (i : ℕ) : String :=
  pyReplace (ctrlName p i) p.suffixCtrl p.autoSuffix

/-- Name of the `blendColors` node made in the constrain-mid branch. -/
def blendName (p : Params) : String :=
  p.name ++ "_" ++ p.muscleSplineName ++ "_Aim_blend"

/-- Name of aim-forward group `i` in the constrain-mid branch. -/
def aimFwdName (p : Params) (i : ℕ) : String :=
  p.name ++ "_aimFwd_" ++ toString i ++ "_" ++ p.suffixGrp

/-- Name of aim-back group `i` in the constrain-mid branch. -/
def aimBckName (p : Params) (i : ℕ) : String :=
  p.name ++ "_aimBack_" ++ toString i ++ "_" ++ p.suffixGrp

/-- Name of the aim-forward root group (the source builds the same name on
every iteration). -/
def aimFwdRootName (p : Params) : String :=
  p.name ++ "_" ++ p.muscleSplineName ++ "_grpAimFwd_" ++ p.rootSuffix

/-- Name of the aim-back root group. -/
def aimBckRootName (p : Params) : String :=
  p.name ++ "_" ++ p.muscleSplineName ++ "_grpAimBck_" ++ p.rootSuffix

/-- Modelled Maya-generated name of the aim constraint created on `g`. -/
def consNameAim (g : String) : String := g ++ "_aimConstraint1"

/-- Modelled Maya-generated name of the point constraint created on `g`. -/
def consNamePoint (g : String) : String := g ++ "_pointConstraint1"

/-- Modelled Maya-generated name of the orient constraint created on `g`. -/
def consNameOrient (g : String) : String := g ++ "_orientConstraint1"

/-- Whether the MayaMuscle plugin is (or can be made) available:
`pm.pluginInfo(..., loaded=True)` or a successful `pm.loadPlugin`. -/
def pluginOK (sc : Scene) : Bool :=
  sc.pluginLoaded || sc.pluginLoadOk

/-- Events of the plugin check at the top of `makeSpline` (lines 569-576). -/
def pluginSection (sc : Scene) : List Cmd :=
  if sc.pluginLoaded then []
  else if sc.pluginLoadOk then
    [Cmd.printMsg "Maya Muscle plugin is not loaded. Trying to load ...",
     Cmd.loadPlugin "MayaMuscle.mll"]
  else
    [Cmd.printMsg "Maya Muscle plugin is not loaded. Trying to load ...",
     Cmd.loadPlugin "MayaMuscle.mll",
     Cmd.hostError "Impossible to load Maya Muscle plugin ..."]

/-- Events of the set bookkeeping (lines 580-586), plus the list of names
created so far (they are visible to later `pm.objExists` queries; the
created-so-far list of each branch is expanded in place). -/
def setsSection (sc : Scene) (p : Params) : List Cmd × List String :=
  if sc.objExists0 p.mainSetName then
    (if sc.objExists0 (setRigName p) then (([] : List Cmd), ([] : List String))
     else ([Cmd.createSet (setRigName p), Cmd.addToSet (setRigName p) [p.mainSetName]],
           [setRigName p]))
  else
    (if sc.objExists0 (setRigName p) || p.mainSetName == setRigName p then
       ([Cmd.createSet p.mainSetName], [p.mainSetName])
     else
       ([Cmd.createSet p.mainSetName, Cmd.createSet (setRigName p),
         Cmd.addToSet (setRigName p) [p.mainSetName]],
        [setRigName p, p.mainSetName]))

/-- The duplicate-name test of lines 588-589, evaluated against the entry scene
extended with the sets just created. -/
def dupFound (sc : Scene) (p : Params) : Bool :=
  let created := (setsSection sc p).2
  (sc.objExists0 (p.muscleSplineName ++ "_" ++ p.name)
      || created.contains (p.muscleSplineName ++ "_" ++ p.name))
    || (sc.objExists0 (mainGrpName p) || created.contains (mainGrpName p))

/-- Events of the duplicate-name failure branch (lines 590-596). -/
def dupFailCmds (p : Params) : List Cmd :=
  [Cmd.msgBox "Muscle/Spline Already Exists"
     "A Muscle or Spline with the given name \"Spline\" already exists.\nPlease choose a different name.",
   Cmd.hostError ("Muscle spline " ++ p.name ++ "_" ++ p.muscleSplineName ++ " already exists")]

/-- Locks translate/rotate/scale (x, y, z) of a node, in the source's loop
order, with `keyable=False`. -/
def lockTRS (node : String) : List Cmd :=
  [Cmd.setLockKeyable node "tx" true false,
   Cmd.setLockKeyable node "ty" true false,
   Cmd.setLockKeyable node "tz" true false,
   Cmd.setLockKeyable node "rx" true false,
   Cmd.setLockKeyable node "ry" true false,
   Cmd.setLockKeyable node "rz" true false,
   Cmd.setLockKeyable node "sx" true false,
   Cmd.setLockKeyable node "sy" true false,
   Cmd.setLockKeyable node "sz" true false]

/-- Events from the main group to the drivens group (lines 598-640): main
group, spline node plus its channel-box attributes, controls group and drivens
group. -/
def preSection (p : Params) : List Cmd :=
  [Cmd.createGroup (mainGrpName p),
   Cmd.addToSet (setRigName p) [mainGrpName p],
   Cmd.createNode "cMuscleSpline" (splineShapeName p),
   Cmd.renameTo (splineXformName p),
   Cmd.setInherit (splineXformName p) false,
   Cmd.parentNode (splineXformName p) (mainGrpName p),
   Cmd.setLock (splineShapeName p) "DISPLAY" true,
   Cmd.setLock (splineShapeName p) "TANGENTS" true,
   Cmd.setLock (splineShapeName p) "LENGTH" true]
  ++ lockTRS (splineXformName p)
  ++ [Cmd.connectAttr "time1.outTime" (splineShapeName p ++ ".inTime"),
      Cmd.addToSet (setRigName p) [splineShapeName p],
      Cmd.addAttr (splineShapeName p) { longName := "curLen" },
      Cmd.addAttr (splineShapeName p) { longName := "pctSquash" },
      Cmd.addAttr (splineShapeName p) { longName := "pctStretch" },
      Cmd.connectAttr (splineShapeName p ++ ".curLen") (splineShapeName p ++ ".outLen"),
      Cmd.connectAttr (splineShapeName p ++ ".pctSquash") (splineShapeName p ++ ".outPctSquash"),
      Cmd.connectAttr (splineShapeName p ++ ".pctStretch") (splineShapeName p ++ ".outPctStretch"),
      Cmd.createGroup (controlsGrpName p),
      Cmd.setInherit (controlsGrpName p) true,
      Cmd.parentNode (controlsGrpName p) (mainGrpName p)]
  ++ lockTRS (controlsGrpName p)
  ++ [Cmd.addToSet (setRigName p) [controlsGrpName p],
      Cmd.createGroup (drivensGrpName p),
      Cmd.setInherit (drivensGrpName p) false,
      Cmd.parentNode (drivensGrpName p) (mainGrpName p)]
  ++ lockTRS (drivensGrpName p)
  ++ [Cmd.addToSet (setRigName p) [drivensGrpName p]]

/-- The control types `tpMuscleSplineCtrl.__init__` knows how to build; any
other string leaves the control as Python `None` and the first transform on it
raises. -/
def ctrlTypeValid (t : String) : Bool :=
  t == "cube" || t == "circleY" || t == "null"

/-- The creation event of control `i` (`tpMuscleSplineCtrl.__init__`): a cube
wireframe curve of half-size `0.25 * charSize`, a Y-up circle of radius
`0.25 * charSize`, or an empty group. -/
def ctrlCreateCmd (p : Params) (i : ℕ) : Cmd :=
  if p.controlType = "cube" then Cmd.createCurve (ctrlName p i) (1 / 4 * p.charSize)
  else if p.controlType = "circleY" then Cmd.createCircle (ctrlName p i) (1 / 4 * p.charSize)
  else Cmd.createGroup (ctrlName p i)

/-- Default jiggle value of control `i`: end controls get `0.0`, middle
controls `1.0` (lines 673-676). -/
def jiggleValue (p : Params) (i : ℕ) : ℚ :=
  if i = 0 ∨ i = p.numControls - 1 then 0 else 1

/-- Attribute path `<shape>.controlData[<i>].<attr>`. -/
def ctrlDataPath (p : Params) (i : ℕ) (attr : String) : String :=
  splineShapeName p ++ ".controlData[" ++ toString i ++ "]." ++ attr

/-- Events of one iteration of the control loop (lines 646-709). -/
def ctrlIter (p : Params) (i : ℕ) : List Cmd :=
  let c := ctrlName p i
  let jig := jiggleValue p i
  [ctrlCreateCmd p i,
   Cmd.createGroup (rootName p i),
   Cmd.createGroup (autoName p i),
   Cmd.xformTranslate c (0, (i : ℚ) * p.charSize, 0),
   Cmd.xformTranslate (rootName p i) (0, (i : ℚ) * p.charSize, 0),
   Cmd.xformTranslate (autoName p i) (0, (i : ℚ) * p.charSize, 0),
   Cmd.parentNode c (autoName p i),
   Cmd.parentNode (autoName p i) (rootName p i),
   Cmd.parentNode (rootName p i) (controlsGrpName p)]
  ++ (if p.controlType = "cube" ∨ p.controlType = "circleY" then
        [Cmd.overrideEnabled c, Cmd.overrideColor c 17]
      else [])
  ++ [Cmd.addAttr c { longName := "tangentLength", shortName := some "tanlen",
                      minValue := some 0, defaultValue := some 1 },
      Cmd.addAttr c { longName := "jiggle", shortName := some "jig", defaultValue := some jig },
      Cmd.addAttr c { longName := "jiggleX", shortName := some "jigX", defaultValue := some jig },
      Cmd.addAttr c { longName := "jiggleY", shortName := some "jigY", defaultValue := some jig },
      Cmd.addAttr c { longName := "jiggleZ", shortName := some "jigZ", defaultValue := some jig },
      Cmd.addAttr c { longName := "jiggleImpact", shortName := some "jigimp",
                      defaultValue := some (1 / 2 * jig) },
      Cmd.addAttr c { longName := "jiggleImpactStart", shortName := some "jigimpst",
                      defaultValue := some 1000 },
      Cmd.addAttr c { longName := "jiggleImpactStop", shortName := some "jigimpsp",
                      defaultValue := some (1 / 1000) },
      Cmd.addAttr c { longName := "cycle", shortName := some "cyc",
                      minValue := some 1, defaultValue := some 12 },
      Cmd.addAttr c { longName := "rest", shortName := some "rst",
                      minValue := some 1, defaultValue := some 24 },
      Cmd.setLock c "tangentLength" p.lockJiggleAttributes,
      Cmd.setLock c "jiggle" p.lockJiggleAttributes,
      Cmd.setLock c "jiggleX" p.lockJiggleAttributes,
      Cmd.setLock c "jiggleX" p.lockJiggleAttributes,
      Cmd.setLock c "jiggleY" p.lockJiggleAttributes,
      Cmd.setLock c "jiggleZ" p.lockJiggleAttributes,
      Cmd.setLock c "jiggleImpact" p.lockJiggleAttributes,
      Cmd.setLock c "jiggleImpactStart" p.lockJiggleAttributes,
      Cmd.setLock c "jiggleImpactStop" p.lockJiggleAttributes,
      Cmd.setLock c "cycle" p.lockJiggleAttributes,
      Cmd.setLock c "rest" p.lockJiggleAttributes]
  ++ (if p.lockScale then
        [Cmd.setLockKeyable c "sx" true false,
         Cmd.setLockKeyable c "sy" true false,
         Cmd.setLockKeyable c "sz" true false]
      else [])
  ++ [Cmd.setLockKeyable c "visibility" true false,
      Cmd.connectAttr (c ++ ".worldMatrix") (ctrlDataPath p i "insertMatrix"),
      Cmd.connectAttr (c ++ ".tangentLength") (ctrlDataPath p i "tangentLength"),
      Cmd.connectAttr (c ++ ".jiggle") (ctrlDataPath p i "jiggle"),
      Cmd.connectAttr (c ++ ".jiggleX") (ctrlDataPath p i "jiggleX"),
      Cmd.connectAttr (c ++ ".jiggleY") (ctrlDataPath p i "jiggleY"),
      Cmd.connectAttr (c ++ ".jiggleZ") (ctrlDataPath p i "jiggleZ"),
      Cmd.connectAttr (c ++ ".jiggleImpact") (ctrlDataPath p i "jiggleImpact"),
      Cmd.connectAttr (c ++ ".jiggleImpactStart") (ctrlDataPath p i "jiggleImpactStart"),
      Cmd.connectAttr (c ++ ".jiggleImpactStop") (ctrlDataPath p i "jiggleImpactStop"),
      Cmd.connectAttr (c ++ ".cycle") (ctrlDataPath p i "cycle"),
      Cmd.connectAttr (c ++ ".rest") (ctrlDataPath p i "rest")]

/-- Events of one iteration of the constrain-mid loop (lines 718-792), for
`1 <= i <= numControls - 2`. -/
def midIter (sc : Scene) (p : Params) (i : ℕ) : List Cmd :=
  let n := p.numControls
  let pct : ℚ := (i : ℚ) / ((n : ℚ) - 1)
  let fwd := aimFwdName p i
  let bck := aimBckName p i
  [Cmd.pointCns (ctrlName p 0) (autoName p i) (1 - pct),
   Cmd.pointCns (ctrlName p (n - 1)) (autoName p i) pct,
   Cmd.createGroup fwd,
   Cmd.createGroup bck,
   Cmd.snapNode fwd (ctrlName p i), Cmd.selectNode fwd,
   Cmd.snapNode bck (ctrlName p i), Cmd.selectNode bck,
   Cmd.addToSet (setRigName p) [rootName p i, fwd, bck],
   Cmd.aimCns (ctrlName p (n - 1)) fwd,
   Cmd.aimCns (ctrlName p 0) bck,
   Cmd.addToSet (setRigName p) [consNameAim fwd, consNameAim bck]]
  ++ (if i = 1 then
        (if sc.upAxisExists then [] else [Cmd.addAttrEnum (splineShapeName p) "upAxis"])
        ++ [Cmd.createNode "blendColors" (blendName p),
            Cmd.connectAttr (splineShapeName p ++ ".upAxis") (blendName p ++ ".blender"),
            Cmd.setAttrV3 (blendName p) "color1" (0, 0, 1),
            Cmd.setAttrV3 (blendName p) "color2" (1, 0, 0),
            Cmd.addToSet (setRigName p) [blendName p]]
      else [])
  ++ [Cmd.connectAttr (blendName p ++ ".output") (consNameAim fwd ++ ".upVector"),
      Cmd.connectAttr (blendName p ++ ".output") (consNameAim fwd ++ ".worldUpVector"),
      Cmd.connectAttr (blendName p ++ ".output") (consNameAim bck ++ ".upVector"),
      Cmd.connectAttr (blendName p ++ ".output") (consNameAim bck ++ ".worldUpVector"),
      Cmd.pointCns (ctrlName p 0) fwd (1 - pct),
      Cmd.pointCns (ctrlName p (n - 1)) fwd pct,
      Cmd.pointCns (ctrlName p 0) bck (1 - pct),
      Cmd.pointCns (ctrlName p (n - 1)) bck pct,
      Cmd.addToSet (setRigName p) [consNamePoint fwd, consNamePoint bck],
      Cmd.orientCns bck (autoName p i) (1 - pct),
      Cmd.setAttrQ (consNameOrient (autoName p i)) "interpType" 2,
      Cmd.orientCns fwd (autoName p i) pct,
      Cmd.setAttrQ (consNameOrient (autoName p i)) "interpType" 2,
      Cmd.addToSet (setRigName p) [consNameOrient (autoName p i)],
      Cmd.createGroup (aimFwdRootName p),
      Cmd.createGroup (aimBckRootName p),
      Cmd.snapNode (aimFwdRootName p) fwd, Cmd.selectNode (aimFwdRootName p),
      Cmd.snapNode (aimBckRootName p) bck, Cmd.selectNode (aimBckRootName p),
      Cmd.addToSet (setRigName p) [aimFwdRootName p, aimBckRootName p],
      Cmd.parentNode (aimFwdRootName p) (rootName p i),
      Cmd.parentNode fwd (aimFwdRootName p),
      Cmd.parentNode (aimBckRootName p) (rootName p i),
      Cmd.parentNode bck (aimFwdRootName p)]

/-- The normalized u-value of driven `i`: `i / (numDrivens - 1.0)`. -/
def uValue (p : Params) (i : ℕ) : ℚ :=
  (i : ℚ) / ((p.numDrivens : ℚ) - 1)

/-- The creation event of driven node `i` (lines 801-808). -/
def drvCreateCmd (p : Params) (i : ℕ) : Cmd :=
  if p.drivenType = "joint" then Cmd.createJoint (drvName p i)
  else if p.drivenType = "circleY" then Cmd.createCircle (drvName p i) (1 * p.charSize)
  else Cmd.createGroup (drvName p i)

/-- Attribute path `<shape>.readData[<i>].<attr>`. -/
def readDataPath (p : Params) (i : ℕ) (attr : String) : String :=
  splineShapeName p ++ ".readData[" ++ toString i ++ "]." ++ attr

/-- Attribute path `<shape>.outputData[<i>].<attr>`. -/
def outputDataPath (p : Params) (i : ℕ) (attr : String) : String :=
  splineShapeName p ++ ".outputData[" ++ toString i ++ "]." ++ attr

/-- Events of one iteration of the driven loop (lines 796-822), valid when
`numDrivens ≠ 1` so the u-value division does not raise. -/
def drivenIter (p : Params) (i : ℕ) : List Cmd :=
  let d := drvName p i
  [drvCreateCmd p i,
   Cmd.selectClear,
   Cmd.addAttr d { longName := "uValue", minValue := some 0, maxValue := some 1,
                   defaultValue := some (uValue p i) },
   Cmd.parentNode d (drivensGrpName p),
   Cmd.addToSet (setRigName p) [d],
   Cmd.connectAttr (d ++ ".uValue") (readDataPath p i "readU"),
   Cmd.connectAttr (d ++ ".rotateOrder") (readDataPath p i "readRotOrder"),
   Cmd.connectAttr (outputDataPath p i "outTranslate") (d ++ ".translate"),
   Cmd.connectAttr (outputDataPath p i "outRotate") (d ++ ".rotate")]

/-- Closing events (lines 824-829): seed the length attributes from the host's
`outLen` and select the main group. -/
def closingSection (sc : Scene) (p : Params) : List Cmd :=
  [Cmd.setAttrQ (splineShapeName p) "lenDefault" sc.outLen,
   Cmd.setAttrQ (splineShapeName p) "lenSquash" (sc.outLen * (1 / 2)),
   Cmd.setAttrQ (splineShapeName p) "lenStretch" (sc.outLen * 2),
   Cmd.selectNode (mainGrpName p)]

/-- Concatenation of a list-valued function over a list (the event trace of a
Python `for` loop). -/
def concatMap {α β : Type} (f : α → List β) : List α → List β
  | [] => []
  | a :: t => f a ++ concatMap f t

/-- The instance attributes assigned by a successful run. -/
def rigStateOf (p : Params) : RigState :=
  { mainGrp := mainGrpName p
    splineNode := splineShapeName p
    splineNodeXForm := splineXformName p
    controlsGrp := controlsGrpName p
    drivensGrp := drivensGrpName p
    controls := (List.range p.numControls).map
      (fun i => { ctrl := ctrlName p i, root := rootName p i, auto := autoName p i })
    consGrps := (List.range p.numControls).map (autoName p)
    rootGrps := (List.range p.numControls).map (rootName p)
    drivens := (List.range p.numDrivens).map (drvName p) }

/-- Events common to every path that survives the duplicate-name check. -/
def successPrefix (sc : Scene) (p : Params) : List Cmd :=
  pluginSection sc ++ (setsSection sc p).1 ++ preSection p

/-- Events of the whole control loop. -/
def ctrlCmds (p : Params) : List Cmd :=
  concatMap (ctrlIter p) (List.range p.numControls)

/-- Events of the constrain-mid section; Python's `range(1, numControls - 1)`. -/
def midCmds (sc : Scene) (p : Params) : List Cmd :=
  if p.constrainMid then concatMap (midIter sc p) (List.range' 1 (p.numControls - 2))
  else []

/-- Events of the whole driven loop (when it does not raise). -/
def drvCmds (p : Params) : List Cmd :=
  concatMap (drivenIter p) (List.range p.numDrivens)

/-- The body of `tpMuscleSplineRig.makeSpline` (lines 538-831), before the
`tpUndo` decorator is applied: the trace of host calls plus the Python-level
outcome.  The four early exits are: plugin load failure (`return`, i.e. None),
duplicate name (`return False`), a control type unknown to
`tpMuscleSplineCtrl` (first `pm.xform` on Python `None` raises; only reachable
when at least one control is requested), and `ZeroDivisionError` from
`i / (numDrivens - 1.0)` when `numDrivens == 1`. -/
def makeSplineBody (sc : Scene) (p : Params) : List Cmd × Outcome :=
  if pluginOK sc = false then
    (pluginSection sc, Outcome.retNone)
  else if dupFound sc p = true then
    (pluginSection sc ++ (setsSection sc p).1 ++ dupFailCmds p, Outcome.retFalse)
  else if ctrlTypeValid p.controlType = false ∧ 0 < p.numControls then
    (successPrefix sc p ++ [Cmd.createGroup (rootName p 0), Cmd.createGroup (autoName p 0)],
     Outcome.raisedTypeError)
  else if p.numDrivens = 1 then
    (successPrefix sc p ++ ctrlCmds p ++ midCmds sc p, Outcome.raisedZeroDiv)
  else
    (successPrefix sc p ++ ctrlCmds p ++ midCmds sc p ++ drvCmds p ++ closingSection sc p,
     Outcome.ok (rigStateOf p) (splineShapeName p))

/-- The `tpUndo` decorator (lines 36-51): open an undo chunk, run the body, and
close the chunk in a `finally` block, so it closes whether the body returns or
raises; the body's result (return value or exception) is passed through. -/
def tpUndo {α β : Type} (fn : α → List Cmd × β) (a : α) : List Cmd × β :=
  let r := fn a
  (Cmd.openChunk :: (r.1 ++ [Cmd.closeChunk]), r.2)

/-- `makeSpline` as callers see it: the body wrapped by `tpUndo`. -/
def makeSpline (sc : Scene) : Params → List Cmd × Outcome :=
  tpUndo (makeSplineBody sc)

/-- `tpMuscleSplineRig.__init__` forwards every parameter unchanged to
`makeSpline`. -/
def tpMuscleSplineRigInit (sc : Scene) (p : Params) : List Cmd × Outcome :=
  makeSpline sc p

/-- The node name a create event introduces into the scene, if any (sets,
groups, nodes, curves, circles, joints, and the rename target). -/
def createdName : Cmd → Option String
  | Cmd.createSet n => some n
  | Cmd.createGroup n => some n
  | Cmd.createNode _ n => some n
  | Cmd.renameTo n => some n
  | Cmd.createCurve n _ => some n
  | Cmd.createCircle n _ => some n
  | Cmd.createJoint n => some n
  | _ => none

/-- All names created by a trace. -/
def createdNames (tr : List Cmd) : List String :=
  tr.filterMap createdName

/-- Whether a command creates a scene node other than a set (group, custom
node, curve, circle, joint, or rename of a fresh transform). -/
def isNodeCreate : Cmd → Bool
  | Cmd.createGroup _ => true
  | Cmd.createNode _ _ => true
  | Cmd.renameTo _ => true
  | Cmd.createCurve _ _ => true
  | Cmd.createCircle _ _ => true
  | Cmd.createJoint _ => true
  | _ => false

/-- Whether a name exists after a run: it existed at entry or was created by
the trace (the script never deletes anything). -/
def existsAfter (sc : Scene) (tr : List Cmd) (n : String) : Bool :=
  sc.objExists0 n || (createdNames tr).contains n

/-- The Python-side data a `tpMuscleSplineRig` object retains after a
successful build: the node names stored in its instance attributes. -/
def retainedNames (r : RigState) : List String :=
  [r.mainGrp, r.splineNode, r.splineNodeXForm, r.controlsGrp, r.drivensGrp]
    ++ r.controls.map CtrlRecord.ctrl
    ++ r.consGrps ++ r.rootGrps ++ r.drivens

/-- The widget values of the `tpMuscleSplineRigWin` dialog, plus the two
enabled flags the tool toggles. -/
structure UIState where
  nameText : String
  charSize : ℚ
  numControls : ℕ
  controlType : String
  numDrivens : ℕ
  drivenType : String
  cnsMidChecked : Bool
  lockScaleChecked : Bool
  enableChecked : Bool
  ctrlSuffixText : String
  jointSuffixText : String
  grpSuffixText : String
  drvSuffixText : String
  mainSetText : String
  setSuffixText : String
  muscleSplineNameText : String
  controlsGroupSuffixText : String
  jointsGroupSuffixText : String
  rootSuffixText : String
  autoSuffixText : String
  btnEnabled : Bool
  advEnabled : Bool
deriving DecidableEq

/-- `tpMuscleSplineRigWin.checkUIState` (lines 421-423): the create button is
enabled iff the name field is non-empty, the advanced widget iff the Enable
checkbox is checked; nothing else is touched. -/
def checkUIState (s : UIState) : UIState :=
  { s with btnEnabled := !(s.nameText == ""), advEnabled := s.enableChecked }

/-- The GUI events wired to `checkUIState` (lines 418-419): editing the name
field and toggling the Enable checkbox. -/
inductive UIEvent where
  | setName (t : String)
  | toggleEnable (b : Bool)
deriving DecidableEq

/-- One step of the GUI: apply the widget change, then the connected
`checkUIState` slot runs. -/
def uiStep (s : UIState) (e : UIEvent) : UIState :=
  match e with
  | UIEvent.setName t => checkUIState { s with nameText := t }
  | UIEvent.toggleEnable b => checkUIState { s with enableChecked := b }

/-- The dialog state right after `customUI` builds it (widget defaults of
lines 213-404; the advanced widget starts disabled, the button at Qt's enabled
default). -/
def initialUIState : UIState :=
  { nameText := "Char01_Spine"
    charSize := 1
    numControls := 3
    controlType := "cube"
    numDrivens := 5
    drivenType := "joint"
    cnsMidChecked := false
    lockScaleChecked := true
    enableChecked := false
    ctrlSuffixText := "ctrl"
    jointSuffixText := "jnt"
    grpSuffixText := "grp"
    drvSuffixText := "drv"
    mainSetText := "setMUSCLERIGS"
    setSuffixText := "RIG"
    muscleSplineNameText := "tpMuscleSpline"
    controlsGroupSuffixText := "ctrls"
    jointsGroupSuffixText := "joints"
    rootSuffixText := "root"
    autoSuffixText := "auto"
    btnEnabled := true
    advEnabled := false }

/-- `tpMuscleSplineRigWin._createMuscleSpline` (lines 425-459): read every
widget and build the `tpMuscleSplineRig` parameter list, with
`lockJiggleAttributes` hard-coded to `False`. -/
def uiParams (s : UIState) : Params :=
  { name := s.nameText
    suffixCtrl := s.ctrlSuffixText
    suffixJnt := s.jointSuffixText
    suffixGrp := s.grpSuffixText
    suffixDrv := s.drvSuffixText
    charSize := s.charSize
    numControls := s.numControls
    controlType := s.controlType
    numDrivens := s.numDrivens
    drivenType := s.drivenType
    constrainMid := s.cnsMidChecked
    mainSetName := s.mainSetText
    rigSetSuffix := s.setSuffixText
    muscleSplineName := s.muscleSplineNameText
    controlsGrpSuffix := s.controlsGroupSuffixText
    jointsGrpSuffix := s.jointsGroupSuffixText
    rootSuffix := s.rootSuffixText
    autoSuffix := s.autoSuffixText
    lockScale := s.lockScaleChecked
    lockJiggleAttributes := false }

/-- Clicking the create button: `_createMuscleSpline` constructs a
`tpMuscleSplineRig`, whose `__init__` runs `makeSpline`. -/
def createMuscleSplineClick (sc : Scene) (s : UIState) : List Cmd × Outcome :=
  tpMuscleSplineRigInit sc (uiParams s)

/-- A scene with nothing in it, the plugin loaded, and an arbitrary measured
length. -/
def cleanScene : Scene :=
  { pluginLoaded := true
    pluginLoadOk := true
    objExists0 := fun _ => false
    upAxisExists := true
    outLen := 4 }

/-- The default parameter set (the UI defaults feed essentially these). -/
def defaultParams : Params :=
  { name := "Char01_Spine" }

/-- A scene that already holds a node with the spline's reversed name, so the
duplicate-name check fires; no sets exist yet. -/
def dupScene : Scene :=
  { cleanScene with objExists0 := fun s => s == "tpMuscleSpline_Char01_Spine" }

/-- A scene in which the MayaMuscle plugin is absent and refuses to load. -/
def noPluginScene : Scene :=
  { cleanScene with pluginLoaded := false, pluginLoadOk := false }

/-- Default parameters with a single driven node, the input on which the
u-value computation divides by zero. -/
def oneDrivenParams : Params :=
  { defaultParams with numControls := 0, numDrivens := 1 }

-- ------------------------------------------------------------------
-- Helper lemmas
-- ------------------------------------------------------------------

theorem concatMap_cons {α β : Type} (f : α → List β) (x : α) (t : List α) :
    concatMap f (x :: t) = f x ++ concatMap f t := rfl

theorem mem_concatMap {α β : Type} {f : α → List β} {l : List α} {a : α} {b : β}
    (ha : a ∈ l) (hb : b ∈ f a) : b ∈ concatMap f l := by
  induction l with
  | nil => cases ha
  | cons x t ih =>
      rcases List.mem_cons.mp ha with rfl | h
      · exact List.mem_append_left _ hb
      · exact List.mem_append_right _ (ih h)

theorem makeSplineBody_success (sc : Scene) (p : Params)
    (h1 : pluginOK sc = true) (h2 : dupFound sc p = false)
    (h3 : ctrlTypeValid p.controlType = true) (h4 : p.numDrivens ≠ 1) :
    makeSplineBody sc p =
      (successPrefix sc p ++ ctrlCmds p ++ midCmds sc p ++ drvCmds p ++ closingSection sc p,
       Outcome.ok (rigStateOf p) (splineShapeName p)) := by
  simp [makeSplineBody, h1, h2, h3, h4]

theorem makeSplineBody_zeroDiv (sc : Scene) (p : Params)
    (h1 : pluginOK sc = true) (h2 : dupFound sc p = false)
    (h3 : ctrlTypeValid p.controlType = true) (h4 : p.numDrivens = 1) :
    makeSplineBody sc p =
      (successPrefix sc p ++ ctrlCmds p ++ midCmds sc p, Outcome.raisedZeroDiv) := by
  simp [makeSplineBody, h1, h2, h3, h4]

theorem makeSplineBody_dup (sc : Scene) (p : Params)
    (h1 : pluginOK sc = true) (h2 : dupFound sc p = true) :
    makeSplineBody sc p =
      (pluginSection sc ++ (setsSection sc p).1 ++ dupFailCmds p, Outcome.retFalse) := by
  simp [makeSplineBody, h1, h2]

theorem makeSpline_fst (sc : Scene) (p : Params) :
    (makeSpline sc p).1 = Cmd.openChunk :: ((makeSplineBody sc p).1 ++ [Cmd.closeChunk]) := rfl

theorem makeSpline_snd (sc : Scene) (p : Params) :
    (makeSpline sc p).2 = (makeSplineBody sc p).2 := rfl

theorem mem_makeSpline_of_body {sc : Scene} {p : Params} {c : Cmd}
    (h : c ∈ (makeSplineBody sc p).1) : c ∈ (makeSpline sc p).1 := by
  rw [makeSpline_fst]
  exact List.mem_cons_of_mem _ (List.mem_append_left _ h)

theorem mem_body_of_ctrl {sc : Scene} {p : Params} {c : Cmd} {i : ℕ}
    (h1 : pluginOK sc = true) (h2 : dupFound sc p = false)
    (h3 : ctrlTypeValid p.controlType = true)
    (hi : i < p.numControls) (hc : c ∈ ctrlIter p i) :
    c ∈ (makeSplineBody sc p).1 := by
  have hmem : c ∈ ctrlCmds p := mem_concatMap (List.mem_range.mpr hi) hc
  by_cases h4 : p.numDrivens = 1
  · rw [makeSplineBody_zeroDiv sc p h1 h2 h3 h4]
    simp [hmem]
  · rw [makeSplineBody_success sc p h1 h2 h3 h4]
    simp [hmem]

theorem mem_body_of_drv {sc : Scene} {p : Params} {c : Cmd} {i : ℕ}
    (h1 : pluginOK sc = true) (h2 : dupFound sc p = false)
    (h3 : ctrlTypeValid p.controlType = true) (h4 : p.numDrivens ≠ 1)
    (hi : i < p.numDrivens) (hc : c ∈ drivenIter p i) :
    c ∈ (makeSplineBody sc p).1 := by
  have hmem : c ∈ drvCmds p := mem_concatMap (List.mem_range.mpr hi) hc
  rw [makeSplineBody_success sc p h1 h2 h3 h4]
  simp [hmem]

theorem mem_body_of_preSection {sc : Scene} {p : Params} {c : Cmd}
    (h1 : pluginOK sc = true) (h2 : dupFound sc p = false)
    (h3 : ctrlTypeValid p.controlType = true)
    (hc : c ∈ preSection p) : c ∈ (makeSplineBody sc p).1 := by
  have hmem : c ∈ successPrefix sc p := by
    simp [successPrefix, hc]
  by_cases h4 : p.numDrivens = 1
  · rw [makeSplineBody_zeroDiv sc p h1 h2 h3 h4]
    simp [hmem]
  · rw [makeSplineBody_success sc p h1 h2 h3 h4]
    simp [hmem]

theorem pluginSection_no_node_create (sc : Scene) :
    ∀ c ∈ pluginSection sc, isNodeCreate c = false := by
  intro c hc
  unfold pluginSection at hc
  split at hc
  · cases hc
  · split at hc <;>
      · simp only [List.mem_cons, List.not_mem_nil, or_false] at hc
        rcases hc with rfl | rfl | rfl <;> rfl

theorem setsSection_no_node_create (sc : Scene) (p : Params) :
    ∀ c ∈ (setsSection sc p).1, isNodeCreate c = false := by
  intro c hc
  unfold setsSection at hc
  split at hc <;> split at hc <;>
    simp only [List.mem_cons, List.not_mem_nil, or_false] at hc
  · rcases hc with rfl | rfl <;> rfl
  · subst hc
    rfl
  · rcases hc with rfl | rfl | rfl <;> rfl

theorem uValue_zero (p : Params) : uValue p 0 = 0 := by
  simp [uValue]

theorem uValue_last (p : Params) (h : 2 ≤ p.numDrivens) :
    uValue p (p.numDrivens - 1) = 1 := by
  have hc : ((p.numDrivens - 1 : ℕ) : ℚ) = (p.numDrivens : ℚ) - 1 := by
    have h1 : 1 ≤ p.numDrivens := le_trans one_le_two h
    push_cast [Nat.cast_sub h1]
    ring
  have h2 : (2 : ℚ) ≤ (p.numDrivens : ℚ) := by exact_mod_cast h
  rw [uValue, hc]
  exact div_self (by linarith)

theorem uValue_step (p : Params) (i : ℕ) :
    uValue p (i + 1) - uValue p i = 1 / ((p.numDrivens : ℚ) - 1) := by
  rw [uValue, uValue, div_sub_div_same]
  push_cast
  ring_nf

theorem uValue_bounds (p : Params) (h : 2 ≤ p.numDrivens) (i : ℕ)
    (hi : i < p.numDrivens) : 0 ≤ uValue p i ∧ uValue p i ≤ 1 := by
  have h2 : (2 : ℚ) ≤ (p.numDrivens : ℚ) := by exact_mod_cast h
  have hd : (0 : ℚ) < (p.numDrivens : ℚ) - 1 := by linarith
  constructor
  · exact div_nonneg (Nat.cast_nonneg i) (le_of_lt hd)
  · rw [uValue, div_le_one hd]
    have : (i : ℚ) + 1 ≤ (p.numDrivens : ℚ) := by exact_mod_cast hi
    linarith

theorem mem_ctrlIter_create (p : Params) (i : ℕ) :
    ctrlCreateCmd p i ∈ ctrlIter p i := by
  simp [ctrlIter]

theorem mem_ctrlIter_rootGrp (p : Params) (i : ℕ) :
    Cmd.createGroup (rootName p i) ∈ ctrlIter p i := by
  simp [ctrlIter]

theorem mem_ctrlIter_autoGrp (p : Params) (i : ℕ) :
    Cmd.createGroup (autoName p i) ∈ ctrlIter p i := by
  simp [ctrlIter]

theorem mem_ctrlIter_parentCtrl (p : Params) (i : ℕ) :
    Cmd.parentNode (ctrlName p i) (autoName p i) ∈ ctrlIter p i := by
  simp [ctrlIter]

theorem mem_ctrlIter_parentAuto (p : Params) (i : ℕ) :
    Cmd.parentNode (autoName p i) (rootName p i) ∈ ctrlIter p i := by
  simp [ctrlIter]

theorem mem_ctrlIter_parentRoot (p : Params) (i : ℕ) :
    Cmd.parentNode (rootName p i) (controlsGrpName p) ∈ ctrlIter p i := by
  simp [ctrlIter]

theorem mem_ctrlIter_jiggle (p : Params) (i : ℕ) :
    Cmd.addAttr (ctrlName p i)
        { longName := "jiggle", shortName := some "jig",
          defaultValue := some (jiggleValue p i) } ∈ ctrlIter p i := by
  simp [ctrlIter]

theorem mem_ctrlIter_jiggleX (p : Params) (i : ℕ) :
    Cmd.addAttr (ctrlName p i)
        { longName := "jiggleX", shortName := some "jigX",
          defaultValue := some (jiggleValue p i) } ∈ ctrlIter p i := by
  simp [ctrlIter]

theorem mem_ctrlIter_jiggleY (p : Params) (i : ℕ) :
    Cmd.addAttr (ctrlName p i)
        { longName := "jiggleY", shortName := some "jigY",
          defaultValue := some (jiggleValue p i) } ∈ ctrlIter p i := by
  simp [ctrlIter]

theorem mem_ctrlIter_jiggleZ (p : Params) (i : ℕ) :
    Cmd.addAttr (ctrlName p i)
        { longName := "jiggleZ", shortName := some "jigZ",
          defaultValue := some (jiggleValue p i) } ∈ ctrlIter p i := by
  simp [ctrlIter]

theorem mem_ctrlIter_jiggleImpact (p : Params) (i : ℕ) :
    Cmd.addAttr (ctrlName p i)
        { longName := "jiggleImpact", shortName := some "jigimp",
          defaultValue := some (1 / 2 * jiggleValue p i) } ∈ ctrlIter p i := by
  simp [ctrlIter]

theorem mem_drivenIter_create (p : Params) (i : ℕ) :
    drvCreateCmd p i ∈ drivenIter p i := by
  simp [drivenIter]

theorem mem_drivenIter_parent (p : Params) (i : ℕ) :
    Cmd.parentNode (drvName p i) (drivensGrpName p) ∈ drivenIter p i := by
  simp [drivenIter]

theorem mem_drivenIter_uValue (p : Params) (i : ℕ) :
    Cmd.addAttr (drvName p i)
        { longName := "uValue", minValue := some 0, maxValue := some 1,
          defaultValue := some (uValue p i) } ∈ drivenIter p i := by
  simp [drivenIter]

theorem createdName_ctrlCreate (p : Params) (i : ℕ) :
    createdName (ctrlCreateCmd p i) = some (ctrlName p i) := by
  unfold ctrlCreateCmd
  split <;> try rfl
  split <;> rfl

theorem createdName_drvCreate (p : Params) (i : ℕ) :
    createdName (drvCreateCmd p i) = some (drvName p i) := by
  unfold drvCreateCmd
  split <;> try rfl
  split <;> rfl

theorem mem_createdNames {tr : List Cmd} {c : Cmd} {n : String}
    (hc : c ∈ tr) (hn : createdName c = some n) : n ∈ createdNames tr := by
  exact List.mem_filterMap.mpr ⟨c, hc, hn⟩

theorem mem_preSection_mainGrp (p : Params) :
    Cmd.createGroup (mainGrpName p) ∈ preSection p := by
  simp [preSection]

theorem mem_preSection_splineNode (p : Params) :
    Cmd.createNode "cMuscleSpline" (splineShapeName p) ∈ preSection p := by
  simp [preSection]

theorem mem_preSection_rename (p : Params) :
    Cmd.renameTo (splineXformName p) ∈ preSection p := by
  simp [preSection]

theorem mem_preSection_controlsGrp (p : Params) :
    Cmd.createGroup (controlsGrpName p) ∈ preSection p := by
  simp [preSection]

theorem mem_preSection_drivensGrp (p : Params) :
    Cmd.createGroup (drivensGrpName p) ∈ preSection p := by
  simp [preSection]

theorem getLast?_wrap {α : Type} (a b : α) (l : List α) :
    (a :: (l ++ [b])).getLast? = some b := by
  rw [show a :: (l ++ [b]) = (a :: l) ++ [b] from rfl]
  exact List.getLast?_concat _

-- ------------------------------------------------------------------
-- Claims
-- ------------------------------------------------------------------

/-- C1 (amended): for every `numControls >= 0` and every `numDrivens >= 0`
other than `numDrivens = 1` (where `i / (numDrivens - 1.0)` raises a
`ZeroDivisionError` before any driven node is made — see the counterexample),
a `makeSpline` run that passes the plugin and duplicate-name checks with a
known control type succeeds; it creates exactly `numControls` controls, the
`i`-th named `baseName + '_' + muscleSplineName + '_' + i + '_' + suffixCtrl`
and parented control-under-auto-under-root-under-controls-group, and exactly
`numDrivens` driven nodes, the `i`-th named with `suffixDrv` in place of
`suffixCtrl` and parented under the drivens group.  The count is witnessed by
the object's `controls`/`drivens` lists, one entry per loop iteration; each
listed name also has its creation and parenting events in the trace. -/
theorem c1_controls_and_drivens_amended (sc : Scene) (p : Params)
    (hplug : pluginOK sc = true) (hdup : dupFound sc p = false)
    (hct : ctrlTypeValid p.controlType = true) (hnd : p.numDrivens ≠ 1) :
    (makeSpline sc p).2 = Outcome.ok (rigStateOf p) (splineShapeName p)
    ∧ (rigStateOf p).controls.map CtrlRecord.ctrl = (List.range p.numControls).map (ctrlName p)
    ∧ (rigStateOf p).drivens = (List.range p.numDrivens).map (drvName p)
    ∧ (∀ i, ctrlName p i
          = p.name ++ "_" ++ p.muscleSplineName ++ "_" ++ toString i ++ "_" ++ p.suffixCtrl
        ∧ drvName p i
          = p.name ++ "_" ++ p.muscleSplineName ++ "_" ++ toString i ++ "_" ++ p.suffixDrv)
    ∧ (∀ i, i < p.numControls →
        ctrlCreateCmd p i ∈ (makeSpline sc p).1
        ∧ Cmd.parentNode (ctrlName p i) (autoName p i) ∈ (makeSpline sc p).1
        ∧ Cmd.parentNode (autoName p i) (rootName p i) ∈ (makeSpline sc p).1
        ∧ Cmd.parentNode (rootName p i) (controlsGrpName p) ∈ (makeSpline sc p).1)
    ∧ (∀ i, i < p.numDrivens →
        drvCreateCmd p i ∈ (makeSpline sc p).1
        ∧ Cmd.parentNode (drvName p i) (drivensGrpName p) ∈ (makeSpline sc p).1) := by
  refine ⟨?_, ?_, ?_, fun i => ⟨rfl, rfl⟩, ?_, ?_⟩
  · rw [makeSpline_snd, makeSplineBody_success sc p hplug hdup hct hnd]
  · simp [rigStateOf]
  · simp [rigStateOf]
  · intro i hi
    exact ⟨mem_makeSpline_of_body (mem_body_of_ctrl hplug hdup hct hi (mem_ctrlIter_create p i)),
           mem_makeSpline_of_body (mem_body_of_ctrl hplug hdup hct hi (mem_ctrlIter_parentCtrl p i)),
           mem_makeSpline_of_body (mem_body_of_ctrl hplug hdup hct hi (mem_ctrlIter_parentAuto p i)),
           mem_makeSpline_of_body (mem_body_of_ctrl hplug hdup hct hi (mem_ctrlIter_parentRoot p i))⟩
  · intro i hi
    exact ⟨mem_makeSpline_of_body (mem_body_of_drv hplug hdup hct hnd hi (mem_drivenIter_create p i)),
           mem_makeSpline_of_body (mem_body_of_drv hplug hdup hct hnd hi (mem_drivenIter_parent p i))⟩

/-- C1 counterexample: `numControls = 0`, `numDrivens = 1` is allowed by the
claim, yet the run aborts with the zero-division error and the one promised
driven node (a joint, the default driven type) is neither created nor
parented. -/
theorem c1_counterexample :
    (makeSpline cleanScene oneDrivenParams).2 = Outcome.raisedZeroDiv
    ∧ Cmd.createJoint (drvName oneDrivenParams 0) ∉ (makeSpline cleanScene oneDrivenParams).1
    ∧ Cmd.parentNode (drvName oneDrivenParams 0) (drivensGrpName oneDrivenParams)
        ∉ (makeSpline cleanScene oneDrivenParams).1 := by
  exact ⟨by decide, by decide, by decide⟩

/-- C1 witness: the amended theorem applied to the default parameters in a
clean scene. -/
theorem c1_witness :
    (makeSpline cleanScene defaultParams).2
      = Outcome.ok (rigStateOf defaultParams) (splineShapeName defaultParams) :=
  (c1_controls_and_drivens_amended cleanScene defaultParams (by decide) (by decide)
    (by decide) (by decide)).1

/-- C2: when a node named `muscleSplineName + '_' + baseName` or
`baseName + '_' + muscleSplineName + '_' + suffixGrp` already exists,
`makeSpline` shows the message box, raises the host error, and returns `False`
having created no scene node at all — in particular no main group, spline
node, control, or driven (at most the two sets were touched). -/
theorem c2_duplicate_name (sc : Scene) (p : Params)
    (hplug : pluginOK sc = true)
    (hex : sc.objExists0 (p.muscleSplineName ++ "_" ++ p.name) = true
            ∨ sc.objExists0 (mainGrpName p) = true) :
    (makeSpline sc p).2 = Outcome.retFalse
    ∧ Cmd.msgBox "Muscle/Spline Already Exists"
        "A Muscle or Spline with the given name \"Spline\" already exists.\nPlease choose a different name."
        ∈ (makeSpline sc p).1
    ∧ Cmd.hostError ("Muscle spline " ++ p.name ++ "_" ++ p.muscleSplineName ++ " already exists")
        ∈ (makeSpline sc p).1
    ∧ ∀ c ∈ (makeSpline sc p).1, isNodeCreate c = false := by
  have hdup : dupFound sc p = true := by
    unfold dupFound
    rcases hex with h | h <;> simp [h]
  have hbody := makeSplineBody_dup sc p hplug hdup
  refine ⟨?_, ?_, ?_, ?_⟩
  · rw [makeSpline_snd, hbody]
  · apply mem_makeSpline_of_body
    rw [hbody]
    simp [dupFailCmds]
  · apply mem_makeSpline_of_body
    rw [hbody]
    simp [dupFailCmds]
  · intro c hc
    rw [makeSpline_fst, hbody] at hc
    simp only [List.mem_cons, List.mem_append, dupFailCmds, List.not_mem_nil, or_false] at hc
    rcases hc with rfl | ((h | h) | (rfl | rfl)) | rfl
    · rfl
    · exact pluginSection_no_node_create sc c h
    · exact setsSection_no_node_create sc p c h
    · rfl
    · rfl
    · rfl

/-- C2 witness: a scene already holding `tpMuscleSpline_Char01_Spine`. -/
theorem c2_witness :
    (makeSpline dupScene defaultParams).2 = Outcome.retFalse :=
  (c2_duplicate_name dupScene defaultParams (by decide) (Or.inl (by decide))).1

/-- C3: `makeSpline` is its body wrapped by `tpUndo`: the trace opens one undo
chunk before any body event and closes it after the last one, in every case —
the equation is unconditional in the scene and parameters, so it also covers
bodies whose outcome is a raised exception (`raisedZeroDiv`,
`raisedTypeError`) — and the body's outcome (return value or exception) is
propagated unchanged. -/
theorem c3_undo_wrapper (sc : Scene) (p : Params) :
    makeSpline sc = tpUndo (makeSplineBody sc)
    ∧ (makeSpline sc p).1 = Cmd.openChunk :: ((makeSplineBody sc p).1 ++ [Cmd.closeChunk])
    ∧ (makeSpline sc p).1.head? = some Cmd.openChunk
    ∧ (makeSpline sc p).1.getLast? = some Cmd.closeChunk
    ∧ (makeSpline sc p).2 = (makeSplineBody sc p).2 := by
  refine ⟨rfl, rfl, rfl, ?_, rfl⟩
  rw [makeSpline_fst]
  exact getLast?_wrap _ _ _

/-- C4: for `numDrivens >= 2` the driven u-value defaults recorded by
`makeSpline` are `i / (numDrivens - 1)`: they lie in `[0, 1]`, start at `0`,
end at `1`, and consecutive values differ by `1 / (numDrivens - 1)`; for
`numDrivens = 1` — which the UI spinner permits (minimum 1) — the expression
divides by zero and `makeSpline` fails with `ZeroDivisionError`. -/
theorem c4_uvalue_defaults (sc : Scene) (p : Params)
    (hplug : pluginOK sc = true) (hdup : dupFound sc p = false)
    (hct : ctrlTypeValid p.controlType = true) :
    (2 ≤ p.numDrivens →
      (∀ i, i < p.numDrivens →
        Cmd.addAttr (drvName p i)
            { longName := "uValue", minValue := some 0, maxValue := some 1,
              defaultValue := some (uValue p i) } ∈ (makeSpline sc p).1
        ∧ uValue p i = (i : ℚ) / ((p.numDrivens : ℚ) - 1)
        ∧ 0 ≤ uValue p i ∧ uValue p i ≤ 1)
      ∧ uValue p 0 = 0
      ∧ uValue p (p.numDrivens - 1) = 1
      ∧ (∀ i, uValue p (i + 1) - uValue p i = 1 / ((p.numDrivens : ℚ) - 1)))
    ∧ (p.numDrivens = 1 → (makeSpline sc p).2 = Outcome.raisedZeroDiv) := by
  constructor
  · intro h2
    have hnd : p.numDrivens ≠ 1 := by omega
    refine ⟨?_, uValue_zero p, uValue_last p h2, fun i => uValue_step p i⟩
    intro i hi
    exact ⟨mem_makeSpline_of_body
             (mem_body_of_drv hplug hdup hct hnd hi (mem_drivenIter_uValue p i)),
           rfl, (uValue_bounds p h2 i hi).1, (uValue_bounds p h2 i hi).2⟩
  · intro h1
    rw [makeSpline_snd, makeSplineBody_zeroDiv sc p hplug hdup hct h1]

/-- C4 witness: the failing branch at one driven, and the zero start value at
the default five drivens. -/
theorem c4_witness :
    (makeSpline cleanScene oneDrivenParams).2 = Outcome.raisedZeroDiv
    ∧ uValue defaultParams 0 = 0 :=
  ⟨(c4_uvalue_defaults cleanScene oneDrivenParams (by decide) (by decide) (by decide)).2 rfl,
   ((c4_uvalue_defaults cleanScene defaultParams (by decide) (by decide) (by decide)).1
      (by decide)).2.1⟩

/-- C5: after a successful run the `tpMuscleSplineRig` object retains no
independent state: every value held in its instance attributes (`mainGrp`,
`splineNode`, `splineNodeXForm`, `controlsGrp`, `drivensGrp`, the `controls`
records, `consGrps`, `rootGrps`, `drivens`) is the name of a node introduced
by one of the one-shot creation commands the run issued to the host scene. -/
theorem c5_no_independent_state (sc : Scene) (p : Params)
    (hplug : pluginOK sc = true) (hdup : dupFound sc p = false)
    (hct : ctrlTypeValid p.controlType = true) (hnd : p.numDrivens ≠ 1) :
    (makeSpline sc p).2 = Outcome.ok (rigStateOf p) (splineShapeName p)
    ∧ ∀ n ∈ retainedNames (rigStateOf p), n ∈ createdNames (makeSpline sc p).1 := by
  refine ⟨by rw [makeSpline_snd, makeSplineBody_success sc p hplug hdup hct hnd], ?_⟩
  intro n hn
  simp only [retainedNames, rigStateOf, List.map_map, Function.comp, List.mem_append,
    List.mem_cons, List.mem_map, List.mem_range, List.not_mem_nil, or_false] at hn
  rcases hn with ((((rfl | rfl | rfl | rfl | rfl) | ⟨i, hi, rfl⟩) | ⟨i, hi, rfl⟩) | ⟨i, hi, rfl⟩) | ⟨i, hi, rfl⟩
  · exact mem_createdNames
      (mem_makeSpline_of_body (mem_body_of_preSection hplug hdup hct (mem_preSection_mainGrp p))) rfl
  · exact mem_createdNames
      (mem_makeSpline_of_body (mem_body_of_preSection hplug hdup hct (mem_preSection_splineNode p))) rfl
  · exact mem_createdNames
      (mem_makeSpline_of_body (mem_body_of_preSection hplug hdup hct (mem_preSection_rename p))) rfl
  · exact mem_createdNames
      (mem_makeSpline_of_body (mem_body_of_preSection hplug hdup hct (mem_preSection_controlsGrp p))) rfl
  · exact mem_createdNames
      (mem_makeSpline_of_body (mem_body_of_preSection hplug hdup hct (mem_preSection_drivensGrp p))) rfl
  · exact mem_createdNames
      (mem_makeSpline_of_body (mem_body_of_ctrl hplug hdup hct hi (mem_ctrlIter_create p i)))
      (createdName_ctrlCreate p i)
  · exact mem_createdNames
      (mem_makeSpline_of_body (mem_body_of_ctrl hplug hdup hct hi (mem_ctrlIter_autoGrp p i))) rfl
  · exact mem_createdNames
      (mem_makeSpline_of_body (mem_body_of_ctrl hplug hdup hct hi (mem_ctrlIter_rootGrp p i))) rfl
  · exact mem_createdNames
      (mem_makeSpline_of_body (mem_body_of_drv hplug hdup hct hnd hi (mem_drivenIter_create p i)))
      (createdName_drvCreate p i)

/-- C5 witness: the main group name retained at the defaults was created by
the run's commands. -/
theorem c5_witness :
    mainGrpName defaultParams ∈ createdNames (makeSpline cleanScene defaultParams).1 :=
  (c5_no_independent_state cleanScene defaultParams (by decide) (by decide) (by decide)
    (by decide)).2 (mainGrpName defaultParams) (by decide)

/-- C6: whenever the MayaMuscle plugin is not loaded, `makeSpline` first tries
to load it; if loading also fails, the whole call is the undo chunk around the
progress print, the load attempt, and the host error, it returns `None`, and
no set, group, or node creation command was issued. -/
theorem c6_plugin_load_failure (sc : Scene) (p : Params)
    (hload : sc.pluginLoaded = false) :
    Cmd.loadPlugin "MayaMuscle.mll" ∈ (makeSpline sc p).1
    ∧ (sc.pluginLoadOk = false →
        makeSpline sc p =
          ([Cmd.openChunk,
            Cmd.printMsg "Maya Muscle plugin is not loaded. Trying to load ...",
            Cmd.loadPlugin "MayaMuscle.mll",
            Cmd.hostError "Impossible to load Maya Muscle plugin ...",
            Cmd.closeChunk], Outcome.retNone)
        ∧ ∀ c ∈ (makeSpline sc p).1, createdName c = none) := by
  have hp : Cmd.loadPlugin "MayaMuscle.mll" ∈ pluginSection sc := by
    unfold pluginSection
    rw [hload]
    simp only [Bool.false_eq_true, if_false]
    split <;> simp
  constructor
  · apply mem_makeSpline_of_body
    unfold makeSplineBody
    split
    · exact hp
    · split
      · simp [hp]
      · split
        · simp [successPrefix, hp]
        · split
          · simp [successPrefix, hp]
          · simp [successPrefix, hp]
  · intro hok
    have hpo : pluginOK sc = false := by simp [pluginOK, hload, hok]
    have hbody : makeSplineBody sc p = (pluginSection sc, Outcome.retNone) := by
      simp [makeSplineBody, hpo]
    have hps : pluginSection sc =
        [Cmd.printMsg "Maya Muscle plugin is not loaded. Trying to load ...",
         Cmd.loadPlugin "MayaMuscle.mll",
         Cmd.hostError "Impossible to load Maya Muscle plugin ..."] := by
      simp [pluginSection, hload, hok]
    constructor
    · show tpUndo (makeSplineBody sc) p = _
      rw [tpUndo, hbody, hps]
      rfl
    · intro c hc
      rw [makeSpline_fst, hbody, hps] at hc
      simp only [List.cons_append, List.nil_append, List.mem_cons, List.not_mem_nil,
        or_false] at hc
      rcases hc with rfl | rfl | rfl | rfl | rfl <;> rfl

/-- C6 witness: a scene without the plugin where loading fails. -/
theorem c6_witness :
    Cmd.loadPlugin "MayaMuscle.mll" ∈ (makeSpline noPluginScene defaultParams).1 :=
  (c6_plugin_load_failure noPluginScene defaultParams rfl).1

/-- C7: after every invocation of `checkUIState` — including the ones run by
the two wired GUI signals (name edited, Enable toggled) — the create button is
enabled iff the name text is non-empty and the advanced widget is enabled iff
the Enable checkbox is checked; `checkUIState` changes no other widget state,
these two flags being the GUI's only enable/disable transitions. -/
theorem c7_checkUIState_invariant :
    ∀ s : UIState,
      ((checkUIState s).btnEnabled = true ↔ ¬ (checkUIState s).nameText = "")
      ∧ (checkUIState s).advEnabled = (checkUIState s).enableChecked
      ∧ (checkUIState s).nameText = s.nameText
      ∧ (checkUIState s).enableChecked = s.enableChecked
      ∧ (checkUIState s).charSize = s.charSize
      ∧ (checkUIState s).numControls = s.numControls
      ∧ (checkUIState s).numDrivens = s.numDrivens
      ∧ (checkUIState s).controlType = s.controlType
      ∧ (checkUIState s).drivenType = s.drivenType
      ∧ (checkUIState s).cnsMidChecked = s.cnsMidChecked
      ∧ (checkUIState s).lockScaleChecked = s.lockScaleChecked
      ∧ (∀ e : UIEvent,
          ((uiStep s e).btnEnabled = true ↔ ¬ (uiStep s e).nameText = "")
          ∧ (uiStep s e).advEnabled = (uiStep s e).enableChecked) := by
  intro s
  refine ⟨?_, rfl, rfl, rfl, rfl, rfl, rfl, rfl, rfl, rfl, rfl, ?_⟩
  · simp [checkUIState]
  · intro e
    cases e <;> exact ⟨by simp [uiStep, checkUIState], rfl⟩

/-- C8: `_createMuscleSpline` reads the name, size, counts, type selections,
checkbox states, and suffix fields and passes each unchanged as the matching
`tpMuscleSplineRig` parameter, with `lockJiggleAttributes` always `False`;
clicking the button runs the constructor, which forwards them to
`makeSpline`. -/
theorem c8_ui_to_params (sc : Scene) (s : UIState) :
    (uiParams s).name = s.nameText
    ∧ (uiParams s).suffixCtrl = s.ctrlSuffixText
    ∧ (uiParams s).suffixJnt = s.jointSuffixText
    ∧ (uiParams s).suffixGrp = s.grpSuffixText
    ∧ (uiParams s).suffixDrv = s.drvSuffixText
    ∧ (uiParams s).charSize = s.charSize
    ∧ (uiParams s).numControls = s.numControls
    ∧ (uiParams s).controlType = s.controlType
    ∧ (uiParams s).numDrivens = s.numDrivens
    ∧ (uiParams s).drivenType = s.drivenType
    ∧ (uiParams s).constrainMid = s.cnsMidChecked
    ∧ (uiParams s).mainSetName = s.mainSetText
    ∧ (uiParams s).rigSetSuffix = s.setSuffixText
    ∧ (uiParams s).muscleSplineName = s.muscleSplineNameText
    ∧ (uiParams s).controlsGrpSuffix = s.controlsGroupSuffixText
    ∧ (uiParams s).jointsGrpSuffix = s.jointsGroupSuffixText
    ∧ (uiParams s).rootSuffix = s.rootSuffixText
    ∧ (uiParams s).autoSuffix = s.autoSuffixText
    ∧ (uiParams s).lockScale = s.lockScaleChecked
    ∧ (uiParams s).lockJiggleAttributes = false
    ∧ createMuscleSplineClick sc s = makeSpline sc (uiParams s) :=
  ⟨rfl, rfl, rfl, rfl, rfl, rfl, rfl, rfl, rfl, rfl, rfl,
   rfl, rfl, rfl, rfl, rfl, rfl, rfl, rfl, rfl, rfl⟩

/-- C9: for control `i`, the `jiggle`, `jiggleX`, `jiggleY`, `jiggleZ`
attributes are added with default `0.0` when `i` is `0` or `numControls - 1`
and `1.0` otherwise, and `jiggleImpact` with half that value. -/
theorem c9_jiggle_defaults (sc : Scene) (p : Params)
    (hplug : pluginOK sc = true) (hdup : dupFound sc p = false)
    (hct : ctrlTypeValid p.controlType = true) (i : ℕ) (hi : i < p.numControls) :
    Cmd.addAttr (ctrlName p i)
        { longName := "jiggle", shortName := some "jig",
          defaultValue := some (if i = 0 ∨ i = p.numControls - 1 then 0 else 1) }
        ∈ (makeSpline sc p).1
    ∧ Cmd.addAttr (ctrlName p i)
        { longName := "jiggleX", shortName := some "jigX",
          defaultValue := some (if i = 0 ∨ i = p.numControls - 1 then 0 else 1) }
        ∈ (makeSpline sc p).1
    ∧ Cmd.addAttr (ctrlName p i)
        { longName := "jiggleY", shortName := some "jigY",
          defaultValue := some (if i = 0 ∨ i = p.numControls - 1 then 0 else 1) }
        ∈ (makeSpline sc p).1
    ∧ Cmd.addAttr (ctrlName p i)
        { longName := "jiggleZ", shortName := some "jigZ",
          defaultValue := some (if i = 0 ∨ i = p.numControls - 1 then 0 else 1) }
        ∈ (makeSpline sc p).1
    ∧ Cmd.addAttr (ctrlName p i)
        { longName := "jiggleImpact", shortName := some "jigimp",
          defaultValue := some (1 / 2 * (if i = 0 ∨ i = p.numControls - 1 then 0 else 1)) }
        ∈ (makeSpline sc p).1 := by
  have h : (if i = 0 ∨ i = p.numControls - 1 then (0 : ℚ) else 1) = jiggleValue p i := rfl
  rw [h]
  exact ⟨mem_makeSpline_of_body (mem_body_of_ctrl hplug hdup hct hi (mem_ctrlIter_jiggle p i)),
         mem_makeSpline_of_body (mem_body_of_ctrl hplug hdup hct hi (mem_ctrlIter_jiggleX p i)),
         mem_makeSpline_of_body (mem_body_of_ctrl hplug hdup hct hi (mem_ctrlIter_jiggleY p i)),
         mem_makeSpline_of_body (mem_body_of_ctrl hplug hdup hct hi (mem_ctrlIter_jiggleZ p i)),
         mem_makeSpline_of_body (mem_body_of_ctrl hplug hdup hct hi (mem_ctrlIter_jiggleImpact p i))⟩

/-- C9 witness: control 1 of the default three controls gets jiggle default 1. -/
theorem c9_witness :
    Cmd.addAttr (ctrlName defaultParams 1)
        { longName := "jiggle", shortName := some "jig",
          defaultValue := some (if 1 = 0 ∨ 1 = defaultParams.numControls - 1 then 0 else 1) }
        ∈ (makeSpline cleanScene defaultParams).1 :=
  (c9_jiggle_defaults cleanScene defaultParams (by decide) (by decide) (by decide) 1
    (by decide)).1

/-- C10 (amended): with the plugin loaded, neither set present, and a
duplicate name in the scene, `makeSpline` creates the main muscle set and the
per-rig set and adds the main set to the per-rig set (pymel's `pm.sets`
operates on its first positional argument) before the duplicate-name check;
the failing call is exactly those set commands plus the message box and host
error, so both sets exist afterward: the duplicate-name failure does not leave
the scene unchanged. -/
theorem c10_sets_survive_failure_amended (sc : Scene) (p : Params)
    (hload : sc.pluginLoaded = true)
    (hmain : sc.objExists0 p.mainSetName = false)
    (hrig : sc.objExists0 (setRigName p) = false)
    (hne : p.mainSetName ≠ setRigName p)
    (hex : sc.objExists0 (p.muscleSplineName ++ "_" ++ p.name) = true
            ∨ sc.objExists0 (mainGrpName p) = true) :
    (makeSpline sc p).2 = Outcome.retFalse
    ∧ (makeSpline sc p).1 =
        [Cmd.openChunk,
         Cmd.createSet p.mainSetName,
         Cmd.createSet (setRigName p),
         Cmd.addToSet (setRigName p) [p.mainSetName],
         Cmd.msgBox "Muscle/Spline Already Exists"
           "A Muscle or Spline with the given name \"Spline\" already exists.\nPlease choose a different name.",
         Cmd.hostError ("Muscle spline " ++ p.name ++ "_" ++ p.muscleSplineName ++ " already exists"),
         Cmd.closeChunk]
    ∧ existsAfter sc (makeSpline sc p).1 p.mainSetName = true
    ∧ existsAfter sc (makeSpline sc p).1 (setRigName p) = true := by
  have hplug : pluginOK sc = true := by simp [pluginOK, hload]
  have hdup : dupFound sc p = true := by
    unfold dupFound
    rcases hex with h | h <;> simp [h]
  have hps : pluginSection sc = [] := by simp [pluginSection, hload]
  have hss : (setsSection sc p).1 =
      [Cmd.createSet p.mainSetName, Cmd.createSet (setRigName p),
       Cmd.addToSet (setRigName p) [p.mainSetName]] := by
    have hbe : (p.mainSetName == setRigName p) = false := beq_eq_false_iff_ne.mpr hne
    simp [setsSection, hmain, hrig, hbe]
  have htr : (makeSpline sc p).1 =
      [Cmd.openChunk,
       Cmd.createSet p.mainSetName,
       Cmd.createSet (setRigName p),
       Cmd.addToSet (setRigName p) [p.mainSetName],
       Cmd.msgBox "Muscle/Spline Already Exists"
         "A Muscle or Spline with the given name \"Spline\" already exists.\nPlease choose a different name.",
       Cmd.hostError ("Muscle spline " ++ p.name ++ "_" ++ p.muscleSplineName ++ " already exists"),
       Cmd.closeChunk] := by
    rw [makeSpline_fst, makeSplineBody_dup sc p hplug hdup, hps, hss]
    rfl
  refine ⟨?_, htr, ?_, ?_⟩
  · rw [makeSpline_snd, makeSplineBody_dup sc p hplug hdup]
  · rw [htr]
    simp [existsAfter, createdNames, createdName]
  · rw [htr]
    simp [existsAfter, createdNames, createdName]

/-- C10 counterexample: at the default names with `tpMuscleSpline_Char01_Spine`
already in the scene, the run issues `addToSet setChar01_SpineRIG
[setMUSCLERIGS]` — the main set becomes a member of the per-rig set — and
never the claimed `addToSet setMUSCLERIGS [setChar01_SpineRIG]`. -/
theorem c10_counterexample :
    (makeSpline dupScene defaultParams).2 = Outcome.retFalse
    ∧ Cmd.addToSet (setRigName defaultParams) [defaultParams.mainSetName]
        ∈ (makeSpline dupScene defaultParams).1
    ∧ Cmd.addToSet defaultParams.mainSetName [setRigName defaultParams]
        ∉ (makeSpline dupScene defaultParams).1 := by
  exact ⟨by decide, by decide, by decide⟩

/-- C10 witness: the per-rig set exists after the failing default-name run. -/
theorem c10_witness :
    existsAfter dupScene (makeSpline dupScene defaultParams).1 (setRigName defaultParams)
      = true :=
  (c10_sets_survive_failure_amended dupScene defaultParams rfl (by decide) (by decide)
    (by decide) (Or.inl (by decide))).2.2.2
